import Mathlib

/-!
Verification of the wine-cultivar prediction system
(repository Cultivar_Origin_Akomah_23CG034034).

The repository ships a React/TypeScript presentation layer
(Static/src/App.tsx, CultivarTestForm.tsx, VineAnimation.tsx,
DionyusVase.tsx) together with documentation of a Flask backend
(app.py) and a scikit-learn training script (model.py).  The backend
sources themselves are not present in the tree; the inference and
training core is therefore modelled from the specification, as flagged
on each such definition.  The presentation-layer definitions are
embedded directly from the TypeScript sources.
-/

namespace Cultivar

/-- A value submitted in one field of a prediction request: either a
number or a raw string (requests arrive as JSON or form data). -/
inductive Value where
  | num (q : ℚ)
  | str (s : String)
deriving DecidableEq, Repr

/-- The numeric value of a decimal digit character, none for any other
character. -/
def digit? (c : Char) : Option Nat :=
  if 48 ≤ c.toNat ∧ c.toNat ≤ 57 then some (c.toNat - 48) else none

/-- Parse a non-empty string of decimal digits to the number it
spells; none when any character is not a digit. -/
def parseDigits : List Char → Option Nat
  | [] => none
  | [c] => digit? c
  | c :: rest =>
      match digit? c, parseDigits rest with
      | some d, some n => some (d * 10 ^ rest.length + n)
      | _, _ => none

/-- Modelled from the spec: conversion of a submitted value to a number
(app.py is absent from src/).  A numeric value converts to itself; a
string converts exactly when it spells a number (digit strings here);
anything else is not convertible. -/
def toNumber : Value → Option ℚ
  | .num q => some q
  | .str s =>
      match parseDigits s.data with
      | some n => some (n : ℚ)
      | none => none

/-- A RawRequest: an unordered mapping from feature name to submitted
value, represented as an association list. -/
abbrev RawRequest : Type := List (String × Value)

/-- Look a field name up in a request. -/
def lookupField : RawRequest → String → Option Value
  | [], _ => none
  | (k, v) :: rest, name => if k = name then some v else lookupField rest name

/-- The numeric value a request submits under a name: the field looked
up and converted, none when the field is absent or not convertible. -/
def numLookup (req : RawRequest) (name : String) : Option ℚ :=
  (lookupField req name).bind toNumber

/-- Per-request prediction errors of the predictor. -/
inductive PredError where
  | featureTypeError (field : String)
  | unknownClassError (index : Nat)
deriving DecidableEq, Repr

/-- Modelled from the spec: the Feature Aligner (spec 4.2; app.py is
absent from src/).  For each name of ColumnOrder in order: a present,
convertible value is used; an absent name emits the sentinel missing
marker (none); a present, non-convertible value fails with
FeatureTypeError naming the field. -/
def alignFeatures (columnOrder : List String) (req : RawRequest) :
    Except PredError (List (Option ℚ)) :=
  match columnOrder with
  | [] => .ok []
  | name :: rest =>
      match lookupField req name with
      | none =>
          match alignFeatures rest req with
          | .ok v => .ok (none :: v)
          | .error e => .error e
      | some val =>
          match toNumber val with
          | none => .error (.featureTypeError name)
          | some q =>
              match alignFeatures rest req with
              | .ok v => .ok (some q :: v)
              | .error e => .error e

/-- Modelled from the spec: the imputation step of the fitted pipeline
(model.py is absent from src/).  Each missing position is resolved to
that column's statistic baked in at training time (the training
median); present values pass through unchanged. -/
def impute : List ℚ → List (Option ℚ) → List ℚ
  | _, [] => []
  | [], _ :: _ => []
  | m :: ms, x :: xs => x.getD m :: impute ms xs

/-- Modelled from the spec: the centering half of the zero-mean /
unit-variance scaling step, subtracting the training mean of each
column. -/
def center : List ℚ → List ℚ → List ℚ
  | _, [] => []
  | [], _ :: _ => []
  | m :: ms, x :: xs => (x - m) :: center ms xs

/-- Modelled from the spec: the fitted pipeline artifact
(pipeline.pkl; model.py is absent from src/).  It carries the fitted
statistics of the imputer (per-column training medians) and of the
scaler (per-column training means and variances, the statistics that
determine the zero-mean / unit-variance transform), the ensemble size,
and the fitted forest's decision function on the transformed features,
treated as an opaque fitted capability as spec 9 directs. -/
structure Pipeline where
  medians : List ℚ
  means : List ℚ
  vars : List ℚ
  nTrees : Nat
  forest : List ℚ → Nat

/-- The input width the fitted pipeline expects. -/
def Pipeline.nFeatures (p : Pipeline) : Nat := p.medians.length

/-- Modelled from the spec: the pipeline as the opaque capability
transform_and_predict(vector) -> index (spec 9): impute, scale,
classify, deterministically in that order. -/
def Pipeline.transformAndPredict (p : Pipeline) (v : List (Option ℚ)) : Nat :=
  p.forest (center p.means (impute p.medians v))

/-- The fixed cultivar label enumeration (spec 6; also the Supported
Cultivars list of the repository documentation). -/
def cultivarLabels : List String :=
  ["Cabernet Sauvignon", "Merlot", "Pinot Noir", "Chardonnay",
   "Sauvignon Blanc", "Riesling", "Syrah/Shiraz", "Tempranillo",
   "Sangiovese", "Nebbiolo", "Other"]

/-- Modelled from the spec: CultivarLabelMap, the fixed read-only
mapping from class index to human-readable cultivar name. -/
def CultivarLabelMap (i : Nat) : Option String := cultivarLabels[i]?

/-- The prediction result returned to the caller: the human-readable
label together with the raw class index. -/
structure PredictionResult where
  label : String
  classIndex : Nat
deriving DecidableEq, Repr

/-- The process-wide loaded state of the predictor: the fitted pipeline
and the canonical column order, loaded once at startup and read-only
thereafter. -/
structure Context where
  pipeline : Pipeline
  columnOrder : List String

/-- Startup failure of the predictor. -/
inductive LoadError where
  | artifactLoadError
deriving DecidableEq, Repr

/-- Modelled from the spec: artifact loading at predictor startup
(app.py is absent from src/).  Loading fails with ArtifactLoadError
when either artifact is absent or the pipeline's expected input width
differs from the length of ColumnOrder. -/
def loadArtifacts (pipelineArtifact : Option Pipeline)
    (columnsArtifact : Option (List String)) : Except LoadError Context :=
  match pipelineArtifact, columnsArtifact with
  | some p, some co =>
      if p.nFeatures = co.length then .ok ⟨p, co⟩
      else .error .artifactLoadError
  | _, _ => .error .artifactLoadError

/-- Modelled from the spec: predict(raw_features) -> PredictionResult
(spec 4.3; app.py is absent from src/).  Align the request, run the
loaded pipeline unchanged, and translate the class index through
CultivarLabelMap, failing with UnknownClassError when the index has no
label. -/
def predict (ctx : Context) (req : RawRequest) :
    Except PredError PredictionResult :=
  match alignFeatures ctx.columnOrder req with
  | .error e => .error e
  | .ok v =>
      match CultivarLabelMap (ctx.pipeline.transformAndPredict v) with
      | some label => .ok ⟨label, ctx.pipeline.transformAndPredict v⟩
      | none => .error (.unknownClassError (ctx.pipeline.transformAndPredict v))

/-- Modelled from the spec: serving one request against the loaded
state.  The loaded artifacts are never mutated at serving time, so the
state after the call is the state before it. -/
def serve (ctx : Context) (req : RawRequest) :
    Context × Except PredError PredictionResult :=
  (ctx, predict ctx req)

/-- Modelled from the spec: a serving run, threading the process state
through a sequence of requests and collecting the responses. -/
def serveTrace (ctx : Context) : List RawRequest →
    List (Except PredError PredictionResult)
  | [] => []
  | r :: rs =>
      ((serve ctx r).2) :: serveTrace (serve ctx r).1 rs

/-- Modelled from the spec: predictor startup followed by serving.  If
loading fails no request is ever served. -/
def startPredictor (pipelineArtifact : Option Pipeline)
    (columnsArtifact : Option (List String)) (reqs : List RawRequest) :
    Except LoadError (List (Except PredError PredictionResult)) :=
  match loadArtifacts pipelineArtifact columnsArtifact with
  | .error e => .error e
  | .ok ctx => .ok (serveTrace ctx reqs)

/-- Modelled from the spec: the training dataset (model.py is absent
from src/): named numeric columns, rows of possibly-missing numeric
cells, and one categorical cultivar target per row. -/
structure Dataset where
  columns : List String
  rows : List (List (Option ℚ))
  target : List Nat

/-- The present values of column j of the dataset, in row order. -/
def columnAt (ds : Dataset) (j : Nat) : List ℚ :=
  ds.rows.filterMap (fun r => (r[j]?).bind id)

/-- Arithmetic mean of a list of rationals (0 for the empty list,
rational division by zero being zero). -/
def mean (l : List ℚ) : ℚ := l.sum / l.length

/-- Population variance of a list of rationals about its mean. -/
def variance (l : List ℚ) : ℚ :=
  ((l.map (fun x => (x - mean l) ^ 2)).sum) / l.length

/-- Median of a list of rationals: middle element of the sorted list,
mean of the two middle elements for even length, 0 for the empty
list. -/
def median (l : List ℚ) : ℚ :=
  let s := l.mergeSort (fun a b => decide (a ≤ b))
  if s.length % 2 = 1 then s.getD (s.length / 2) 0
  else if s.length = 0 then 0
  else (s.getD (s.length / 2 - 1) 0 + s.getD (s.length / 2) 0) / 2

/-- Modelled from the spec: the decision function the Random Forest fit
acquires from the training data (model.py is absent from src/; the
learned trees are abstracted as a deterministic function of the
dataset, here the majority training class). -/
def fitForest (ds : Dataset) : List ℚ → Nat :=
  fun _ =>
    ds.target.foldl
      (fun best t => if ds.target.count best < ds.target.count t then t else best)
      (ds.target.headD 0)

/-- Modelled from the spec: train(dataset) -> (Pipeline, ColumnOrder)
(spec 4.1; model.py is absent from src/).  Records the dataset's column
names in their original order, fits the imputer medians, the scaler
statistics and a 200-tree Random Forest from the training data only. -/
def train (ds : Dataset) : Pipeline × List String :=
  ({ medians := (List.range ds.columns.length).map (fun j => median (columnAt ds j))
     means := (List.range ds.columns.length).map (fun j => mean (columnAt ds j))
     vars := (List.range ds.columns.length).map (fun j => variance (columnAt ds j))
     nTrees := 200
     forest := fitForest ds },
   ds.columns)

/-- Modelled from the spec: the two independently persisted artifacts
(pipeline.pkl and model_columns.pkl). -/
structure ArtifactStore where
  pipelineFile : Option Pipeline
  columnsFile : Option (List String)

/-- Modelled from the spec: persisting the fitted pipeline and the
column order as two independent artifacts. -/
def persist (p : Pipeline) (co : List String) : ArtifactStore :=
  ⟨some p, some co⟩

/-- Modelled from the spec: predictor startup loading from the artifact
store, without re-fitting. -/
def loadFromStore (s : ArtifactStore) : Except LoadError Context :=
  loadArtifacts s.pipelineFile s.columnsFile

/-- The values of the CultivarTestForm fields at submission time
(Static/src/components/CultivarTestForm.tsx): wine name, suspected
cultivar, region of origin, tasting notes. -/
structure FormFields where
  wineName : String
  suspectedCultivar : String
  region : String
  tastingNotes : String
deriving DecidableEq, Repr

/-- The observable effect of one run of the form's submit handler. -/
structure SubmitEffect where
  preventedDefault : Bool
  submittedAfter : Bool
  resetToFalseAfterMs : Option Nat
  networkRequests : Nat
  predictionPayload : Option (List (String × Value))
deriving DecidableEq, Repr

/-- Shallow embedding of handleSubmit in CultivarTestForm.tsx
(src/unnamed/part_003, lines 79 to 85).  The handler receives only the
form event; the fields argument records the values entered in the form
at submission time, none of which the handler reads.  It calls
preventDefault, sets the submitted flag to true, schedules the flag
back to false after 3000 ms, performs no network request and builds no
prediction payload. -/
def handleSubmit (_fields : FormFields) : SubmitEffect :=
  { preventedDefault := true
    submittedAfter := true
    resetToFalseAfterMs := some 3000
    networkRequests := 0
    predictionPayload := none }

/-- The option list of the Suspected Cultivar dropdown in
CultivarTestForm.tsx (src/unnamed/part_003, lines 198 to 214), as
pairs of option value and visible label, including the empty-valued
placeholder. -/
def dropdownOptions : List (String × String) :=
  [("", "Select a cultivar..."),
   ("cabernet-sauvignon", "Cabernet Sauvignon"),
   ("merlot", "Merlot"),
   ("pinot-noir", "Pinot Noir"),
   ("chardonnay", "Chardonnay"),
   ("sauvignon-blanc", "Sauvignon Blanc"),
   ("riesling", "Riesling"),
   ("syrah", "Syrah/Shiraz"),
   ("tempranillo", "Tempranillo"),
   ("sangiovese", "Sangiovese"),
   ("nebbiolo", "Nebbiolo"),
   ("other", "Other")]

/-! ## General lemmas about the aligner and the serving loop -/

lemma lookupField_cons_ne (req : RawRequest) (k name : String) (v : Value)
    (h : k ≠ name) : lookupField ((k, v) :: req) name = lookupField req name := by
  simp [lookupField, h]

lemma alignFeatures_eq_map (co : List String) (req : RawRequest)
    (h : ∀ name ∈ co, lookupField req name = none ∨ (numLookup req name).isSome) :
    alignFeatures co req = .ok (co.map (numLookup req)) := by
  induction co with
  | nil => rfl
  | cons name rest ih =>
      have hrest := ih (fun n hn => h n (List.mem_cons_of_mem _ hn))
      have hname := h name (List.mem_cons_self _ _)
      simp only [alignFeatures, List.map]
      cases hl : lookupField req name with
      | none =>
          rw [hrest]
          simp [numLookup, hl]
      | some val =>
          cases ht : toNumber val with
          | none =>
              exfalso
              rcases hname with h1 | h2
              · rw [hl] at h1; exact Option.noConfusion h1
              · rw [numLookup, hl] at h2; simp [ht] at h2
          | some q =>
              rw [hrest]
              simp [numLookup, hl, ht]

lemma alignFeatures_cons_not_mem (co : List String) (req : RawRequest)
    (k : String) (v : Value) (hk : k ∉ co) :
    alignFeatures co ((k, v) :: req) = alignFeatures co req := by
  induction co with
  | nil => rfl
  | cons name rest ih =>
      have hne : k ≠ name := fun e => hk (e ▸ List.mem_cons_self _ _)
      rw [alignFeatures, alignFeatures, lookupField_cons_ne req k name v hne,
        ih (fun hm => hk (List.mem_cons_of_mem _ hm))]

lemma serveTrace_eq_map (ctx : Context) (reqs : List RawRequest) :
    serveTrace ctx reqs = reqs.map (predict ctx) := by
  induction reqs with
  | nil => rfl
  | cons r rs ih => simp only [serveTrace, serve, ih, List.map]

lemma serveTrace_at (ctx : Context) (pre post : List RawRequest) (req : RawRequest) :
    (serveTrace ctx (pre ++ req :: post))[pre.length]? = some (predict ctx req) := by
  rw [serveTrace_eq_map]
  induction pre with
  | nil => simp
  | cons a t ih => simpa using ih

/-! ## The claims -/

/-- C1: for every RawRequest containing every name of ColumnOrder with
a numeric value, the Feature Aligner's output has length
len(ColumnOrder) and its i-th position carries exactly the numeric
value submitted under ColumnOrder[i], independently of the submission
order of the request's keys. -/
theorem align_complete_request (co : List String) (req : RawRequest)
    (h : ∀ name ∈ co, (numLookup req name).isSome) :
    ∃ v, alignFeatures co req = .ok v ∧ v.length = co.length ∧
      ∀ i (hi : i < co.length),
        v[i]? = some (numLookup req co[i]) ∧ (numLookup req co[i]).isSome := by
  refine ⟨co.map (numLookup req),
    alignFeatures_eq_map co req (fun n hn => Or.inr (h n hn)), by simp, ?_⟩
  intro i hi
  refine ⟨?_, h co[i] (List.getElem_mem hi)⟩
  simp [List.getElem?_eq_getElem hi]

/-- Witness for C1 at Scenario A: ColumnOrder
[alcohol, malic_acid, ash] with the request submitted in the order
ash, alcohol, malic_acid aligns to [13.1, 1.7, 2.4]. -/
theorem align_complete_request_witness :
    (∀ name ∈ (["alcohol", "malic_acid", "ash"] : List String),
      (numLookup [("ash", .num 2.4), ("alcohol", .num 13.1), ("malic_acid", .num 1.7)]
        name).isSome)
    ∧ (∃ v, alignFeatures ["alcohol", "malic_acid", "ash"]
          [("ash", .num 2.4), ("alcohol", .num 13.1), ("malic_acid", .num 1.7)] = .ok v ∧
        v.length = (["alcohol", "malic_acid", "ash"] : List String).length ∧
        ∀ i (hi : i < (["alcohol", "malic_acid", "ash"] : List String).length),
          v[i]? = some (numLookup
            [("ash", .num 2.4), ("alcohol", .num 13.1), ("malic_acid", .num 1.7)]
            (["alcohol", "malic_acid", "ash"] : List String)[i])
          ∧ (numLookup
              [("ash", .num 2.4), ("alcohol", .num 13.1), ("malic_acid", .num 1.7)]
              (["alcohol", "malic_acid", "ash"] : List String)[i]).isSome)
    ∧ alignFeatures ["alcohol", "malic_acid", "ash"]
        [("ash", .num 2.4), ("alcohol", .num 13.1), ("malic_acid", .num 1.7)]
        = .ok [some 13.1, some 1.7, some 2.4] :=
  ⟨by decide, align_complete_request _ _ (by decide), rfl⟩

/-- C2: for a fixed loaded Context, the response to a request is the
same deterministic function of the loaded artifacts and the request,
wherever the request occurs in a serving run: repeated calls yield the
identical PredictionResult. -/
theorem predict_deterministic (ctx : Context) (req : RawRequest)
    (pre1 post1 pre2 post2 : List RawRequest) :
    (serveTrace ctx (pre1 ++ req :: post1))[pre1.length]? = some (predict ctx req)
    ∧ (serveTrace ctx (pre1 ++ req :: post1))[pre1.length]?
        = (serveTrace ctx (pre2 ++ req :: post2))[pre2.length]? :=
  ⟨serveTrace_at ctx pre1 post1 req, by
    rw [serveTrace_at ctx pre1 post1 req, serveTrace_at ctx pre2 post2 req]⟩

/-- C3: the form submit handler's behaviour does not depend on any of
the entered field values: it only prevents the default, sets the
submitted flag, and schedules its reset after 3000 ms; it performs no
network request and builds no prediction payload. -/
theorem form_submit_field_independent (f g : FormFields) :
    handleSubmit f = handleSubmit g
    ∧ (handleSubmit f).preventedDefault = true
    ∧ (handleSubmit f).submittedAfter = true
    ∧ (handleSubmit f).resetToFalseAfterMs = some 3000
    ∧ (handleSubmit f).networkRequests = 0
    ∧ (handleSubmit f).predictionPayload = none :=
  ⟨rfl, rfl, rfl, rfl, rfl, rfl⟩

lemma impute_getElem?_of_none (v : List (Option ℚ)) :
    ∀ (ms : List ℚ) (i : Nat), v[i]? = some none → (impute ms v)[i]? = ms[i]? := by
  induction v with
  | nil => intro ms i h; simp at h
  | cons x xs ih =>
      intro ms i h
      cases ms with
      | nil => simp [impute]
      | cons m mrest =>
          cases i with
          | zero =>
              simp only [List.getElem?_cons_zero, Option.some.injEq] at h
              subst h
              simp [impute]
          | succ n =>
              simp only [impute, List.getElem?_cons_succ] at h ⊢
              exact ih mrest n h

/-- C4: for a RawRequest missing some names of ColumnOrder, the Feature
Aligner emits the sentinel missing marker (and no default value of its
own) at exactly those positions, and the pipeline's imputer resolves
each such position to the training median stored for that column. -/
theorem align_missing_imputed (co : List String) (req : RawRequest) (medians : List ℚ)
    (h : ∀ name ∈ co, lookupField req name = none ∨ (numLookup req name).isSome) :
    ∃ v, alignFeatures co req = .ok v ∧ v.length = co.length ∧
      ∀ i (hi : i < co.length), lookupField req co[i] = none →
        v[i]? = some none ∧ (impute medians v)[i]? = medians[i]? := by
  refine ⟨co.map (numLookup req), alignFeatures_eq_map co req h, by simp, ?_⟩
  intro i hi hmiss
  have hv : (co.map (numLookup req))[i]? = some none := by
    simp [List.getElem?_eq_getElem hi, numLookup, hmiss]
  exact ⟨hv, impute_getElem?_of_none _ medians i hv⟩

/-- Witness for C4 at Scenario B: request [alcohol: 13.1] against
ColumnOrder [alcohol, malic_acid, ash] aligns to [13.1, missing,
missing], and the imputer with training medians [11.9, 2.3, 2.4]
resolves it to [13.1, 2.3, 2.4]. -/
theorem align_missing_imputed_witness :
    (∀ name ∈ (["alcohol", "malic_acid", "ash"] : List String),
      lookupField [("alcohol", .num 13.1)] name = none
      ∨ (numLookup [("alcohol", .num 13.1)] name).isSome)
    ∧ (∃ v, alignFeatures ["alcohol", "malic_acid", "ash"] [("alcohol", .num 13.1)] = .ok v ∧
        v.length = (["alcohol", "malic_acid", "ash"] : List String).length ∧
        ∀ i (hi : i < (["alcohol", "malic_acid", "ash"] : List String).length),
          lookupField [("alcohol", .num 13.1)]
            (["alcohol", "malic_acid", "ash"] : List String)[i] = none →
          v[i]? = some none
          ∧ (impute [11.9, 2.3, 2.4] v)[i]? = ([11.9, 2.3, 2.4] : List ℚ)[i]?)
    ∧ alignFeatures ["alcohol", "malic_acid", "ash"] [("alcohol", .num 13.1)]
        = .ok [some 13.1, none, none]
    ∧ impute [11.9, 2.3, 2.4] [some 13.1, none, none] = [13.1, 2.3, 2.4] :=
  ⟨by decide, align_missing_imputed _ _ _ (by decide), rfl, rfl⟩

/-- C5: keys absent from ColumnOrder are ignored without error: adding
such a key to a request changes neither the aligned vector nor the
prediction output. -/
theorem unknown_keys_ignored (ctx : Context) (req : RawRequest) (k : String) (v : Value)
    (hk : k ∉ ctx.columnOrder) :
    alignFeatures ctx.columnOrder ((k, v) :: req) = alignFeatures ctx.columnOrder req
    ∧ predict ctx ((k, v) :: req) = predict ctx req := by
  have ha := alignFeatures_cons_not_mem ctx.columnOrder req k v hk
  refine ⟨ha, ?_⟩
  rw [predict, predict, ha]

/-- Witness for C5 at Scenario C: an unrecognized field
vintage_year = 2020 alongside all recognized fields leaves the
prediction unchanged. -/
theorem unknown_keys_ignored_witness :
    ("vintage_year" ∉ (Context.mk ⟨[11.9, 2.3, 2.4], [13, 2, 2.3], [1, 1, 1], 200,
        fun _ => 0⟩ ["alcohol", "malic_acid", "ash"]).columnOrder)
    ∧ predict (Context.mk ⟨[11.9, 2.3, 2.4], [13, 2, 2.3], [1, 1, 1], 200,
        fun _ => 0⟩ ["alcohol", "malic_acid", "ash"])
        (("vintage_year", .num 2020) ::
          [("alcohol", .num 13.1), ("malic_acid", .num 1.7), ("ash", .num 2.4)])
      = predict (Context.mk ⟨[11.9, 2.3, 2.4], [13, 2, 2.3], [1, 1, 1], 200,
          fun _ => 0⟩ ["alcohol", "malic_acid", "ash"])
        [("alcohol", .num 13.1), ("malic_acid", .num 1.7), ("ash", .num 2.4)]
    ∧ predict (Context.mk ⟨[11.9, 2.3, 2.4], [13, 2, 2.3], [1, 1, 1], 200,
        fun _ => 0⟩ ["alcohol", "malic_acid", "ash"])
        [("alcohol", .num 13.1), ("malic_acid", .num 1.7), ("ash", .num 2.4)]
      = .ok ⟨"Cabernet Sauvignon", 0⟩ :=
  ⟨by decide, (unknown_keys_ignored _ _ _ _ (by decide)).2, rfl⟩

/-- C6: a request carrying, under a recognized name, a value that is
not convertible to a number makes the Feature Aligner fail with a
FeatureTypeError that names an offending field; the error is a
per-request value, not a crash. -/
theorem nonconvertible_value_fails (co : List String) (req : RawRequest)
    (h : ∃ name, name ∈ co ∧ ∃ v, lookupField req name = some v ∧ toNumber v = none) :
    ∃ f, alignFeatures co req = .error (.featureTypeError f)
      ∧ f ∈ co ∧ ∃ v, lookupField req f = some v ∧ toNumber v = none := by
  induction co with
  | nil =>
      obtain ⟨name, hn, -⟩ := h
      simp at hn
  | cons name rest ih =>
      by_cases hcase : ∃ v, lookupField req name = some v ∧ toNumber v = none
      · obtain ⟨v, hv, ht⟩ := hcase
        refine ⟨name, ?_, List.mem_cons_self _ _, v, hv, ht⟩
        simp only [alignFeatures, hv, ht]
      · have hrest : ∃ n, n ∈ rest ∧ ∃ v, lookupField req n = some v ∧ toNumber v = none := by
          obtain ⟨n, hn, v, hv, ht⟩ := h
          rcases List.mem_cons.mp hn with rfl | hmem
          · exact absurd ⟨v, hv, ht⟩ hcase
          · exact ⟨n, hmem, v, hv, ht⟩
        obtain ⟨f, hf, hfm, w, hw, hwt⟩ := ih hrest
        refine ⟨f, ?_, List.mem_cons_of_mem _ hfm, w, hw, hwt⟩
        cases hl : lookupField req name with
        | none => simp only [alignFeatures, hl, hf]
        | some val =>
            cases ht : toNumber val with
            | none => exact absurd ⟨val, hl, ht⟩ hcase
            | some q => simp only [alignFeatures, hl, ht, hf]

/-- Witness for C6 at Scenario D: the request [alcohol: "thirteen"]
fails with FeatureTypeError naming alcohol. -/
theorem nonconvertible_value_fails_witness :
    (∃ name, name ∈ (["alcohol", "malic_acid", "ash"] : List String)
      ∧ ∃ v, lookupField [("alcohol", .str "thirteen")] name = some v ∧ toNumber v = none)
    ∧ (∃ f, alignFeatures ["alcohol", "malic_acid", "ash"] [("alcohol", .str "thirteen")]
          = .error (.featureTypeError f)
        ∧ f ∈ (["alcohol", "malic_acid", "ash"] : List String)
        ∧ ∃ v, lookupField [("alcohol", .str "thirteen")] f = some v ∧ toNumber v = none)
    ∧ alignFeatures ["alcohol", "malic_acid", "ash"] [("alcohol", .str "thirteen")]
        = .error (.featureTypeError "alcohol") :=
  ⟨⟨"alcohol", by decide, .str "thirteen", rfl, rfl⟩,
   nonconvertible_value_fails _ _ ⟨"alcohol", by decide, .str "thirteen", rfl, rfl⟩,
   rfl⟩

/-- C7: when either persisted artifact is absent, or the pipeline's
expected input width differs from len(ColumnOrder), predictor startup
fails with ArtifactLoadError and no request of any serving run is ever
answered: the mismatch is fatal at load time. -/
theorem artifact_mismatch_fatal (pa : Option Pipeline) (ca : Option (List String))
    (h : pa = none ∨ ca = none ∨
      ∀ p co, pa = some p → ca = some co → p.nFeatures ≠ co.length) :
    ∀ reqs, startPredictor pa ca reqs = .error .artifactLoadError := by
  intro reqs
  rcases h with rfl | rfl | hmis
  · cases ca <;> rfl
  · cases pa <;> rfl
  · cases pa with
    | none => rfl
    | some p =>
        cases ca with
        | none => rfl
        | some co =>
            rw [startPredictor, loadArtifacts, if_neg (hmis p co rfl rfl)]

/-- Witness for C7 at Scenario E: a pipeline expecting 13 features
paired with a ColumnOrder of 11 entries makes startup fail with
ArtifactLoadError, serving nothing. -/
theorem artifact_mismatch_fatal_witness :
    (∀ p co, some (Pipeline.mk (List.replicate 13 0) [] [] 200 (fun _ => 0)) = some p →
      some (List.replicate 11 "f") = some co → p.nFeatures ≠ co.length)
    ∧ startPredictor (some (Pipeline.mk (List.replicate 13 0) [] [] 200 (fun _ => 0)))
        (some (List.replicate 11 "f")) [[]] = .error .artifactLoadError :=
  ⟨fun p co hp hc => by
      cases hp; cases hc; decide,
   artifact_mismatch_fatal _ _
     (Or.inr (Or.inr (fun p co hp hc => by cases hp; cases hc; decide))) [[]]⟩

/-- C8: when the classifier produces a class index that is not a key of
CultivarLabelMap, predict fails with UnknownClassError carrying that
index instead of returning any label to the caller. -/
theorem unknown_class_fails (ctx : Context) (req : RawRequest) (v : List (Option ℚ))
    (ha : alignFeatures ctx.columnOrder req = .ok v)
    (hu : CultivarLabelMap (ctx.pipeline.transformAndPredict v) = none) :
    predict ctx req = .error (.unknownClassError (ctx.pipeline.transformAndPredict v)) := by
  rw [predict, ha]
  simp only [hu]

/-- Witness for C8: a loaded pipeline whose forest answers class index
11 — beyond the eleven-entry label map — makes predict fail with
UnknownClassError 11. -/
theorem unknown_class_fails_witness :
    alignFeatures (Context.mk ⟨[], [], [], 200, fun _ => 11⟩ []).columnOrder [] = .ok []
    ∧ CultivarLabelMap ((Context.mk ⟨[], [], [], 200, fun _ => 11⟩
        []).pipeline.transformAndPredict []) = none
    ∧ predict (Context.mk ⟨[], [], [], 200, fun _ => 11⟩ []) []
        = .error (.unknownClassError 11) :=
  ⟨rfl, rfl, unknown_class_fails _ [] [] rfl rfl⟩

/-- C10: every successful prediction's label belongs to the fixed
enumerated set of exactly eleven cultivar labels, which is the same
set the presentation layer's cultivar dropdown offers. -/
theorem labels_fixed_eleven :
    (∀ ctx req res, predict ctx req = .ok res → res.label ∈ cultivarLabels)
    ∧ (dropdownOptions.filter (fun o => o.fst != "")).map Prod.snd = cultivarLabels
    ∧ cultivarLabels.length = 11 := by
  refine ⟨?_, rfl, rfl⟩
  intro ctx req res h
  rw [predict] at h
  cases ha : alignFeatures ctx.columnOrder req with
  | error e => simp only [ha] at h; exact Except.noConfusion h
  | ok v =>
      simp only [ha] at h
      cases hm : CultivarLabelMap (ctx.pipeline.transformAndPredict v) with
      | none => simp only [hm] at h; exact Except.noConfusion h
      | some label =>
          simp only [hm] at h
          have hres : (PredictionResult.mk label (ctx.pipeline.transformAndPredict v)) = res :=
            by injection h
          rw [← hres]
          exact List.getElem?_mem hm

/-- Witness for C10: a concrete successful prediction whose label,
Cabernet Sauvignon, lies in the fixed label set. -/
theorem labels_fixed_eleven_witness :
    predict (Context.mk ⟨[], [], [], 200, fun _ => 0⟩ []) [] = .ok ⟨"Cabernet Sauvignon", 0⟩
    ∧ "Cabernet Sauvignon" ∈ cultivarLabels :=
  ⟨rfl, labels_fixed_eleven.1 (Context.mk ⟨[], [], [], 200, fun _ => 0⟩ [])
    [] ⟨"Cabernet Sauvignon", 0⟩ rfl⟩

lemma sum_map_sub (l : List ℚ) (c : ℚ) :
    (l.map (fun x => x - c)).sum = l.sum - l.length * c := by
  induction l with
  | nil => simp
  | cons x xs ih =>
      simp only [List.map, List.sum_cons, ih, List.length_cons]
      push_cast
      ring

lemma mean_center_zero (l : List ℚ) :
    mean (l.map (fun x => x - mean l)) = 0 := by
  rcases eq_or_ne l.length 0 with h | h
  · rw [List.length_eq_zero.mp h]
    simp [mean]
  · have hn : (l.length : ℚ) ≠ 0 := by exact_mod_cast h
    rw [mean, List.length_map, sum_map_sub, mean, mul_comm,
      div_mul_cancel₀ _ hn, sub_self, zero_div]

/-- C9: train records the dataset's column names in their original
order as ColumnOrder; fits the imputer medians and the scaler's
zero-mean / unit-variance statistics (per-column mean, centering to
mean zero, and variance) from the training data only; fits the Random
Forest with exactly 200 trees; and persists the fitted pipeline and
ColumnOrder as two independent artifacts that load back without
re-fitting. -/
theorem trainer_contract (ds : Dataset) :
    (train ds).2 = ds.columns
    ∧ (train ds).1.medians
        = (List.range ds.columns.length).map (fun j => median (columnAt ds j))
    ∧ (train ds).1.means
        = (List.range ds.columns.length).map (fun j => mean (columnAt ds j))
    ∧ (train ds).1.vars
        = (List.range ds.columns.length).map (fun j => variance (columnAt ds j))
    ∧ (train ds).1.nTrees = 200
    ∧ (train ds).1.nFeatures = ds.columns.length
    ∧ (∀ j, mean ((columnAt ds j).map (fun x => x - mean (columnAt ds j))) = 0)
    ∧ loadFromStore (persist (train ds).1 (train ds).2) = .ok ⟨(train ds).1, (train ds).2⟩ := by
  have hw : (train ds).1.nFeatures = ds.columns.length := by
    simp [train, Pipeline.nFeatures]
  refine ⟨rfl, rfl, rfl, rfl, rfl, hw, fun j => mean_center_zero _, ?_⟩
  rw [loadFromStore, persist, loadArtifacts, if_pos]
  exact hw.trans (congrArg List.length rfl)

/-- Witness for C9: the trainer's contract instantiated at a concrete
two-column dataset with a missing cell. -/
theorem trainer_contract_witness :
    (train ⟨["a", "b"], [[some 1, some 2], [some 3, none]], [0, 0, 1]⟩).2 = ["a", "b"]
    ∧ (train ⟨["a", "b"], [[some 1, some 2], [some 3, none]], [0, 0, 1]⟩).1.nTrees = 200
    ∧ loadFromStore (persist
        (train ⟨["a", "b"], [[some 1, some 2], [some 3, none]], [0, 0, 1]⟩).1
        (train ⟨["a", "b"], [[some 1, some 2], [some 3, none]], [0, 0, 1]⟩).2)
      = .ok ⟨(train ⟨["a", "b"], [[some 1, some 2], [some 3, none]], [0, 0, 1]⟩).1,
          (train ⟨["a", "b"], [[some 1, some 2], [some 3, none]], [0, 0, 1]⟩).2⟩ :=
  ⟨(trainer_contract _).1,
   (trainer_contract _).2.2.2.2.1,
   (trainer_contract ⟨["a", "b"], [[some 1, some 2], [some 3, none]], [0, 0, 1]⟩).2.2.2.2.2.2.2⟩

end Cultivar
